import Mathlib

/-
Verification of the bait-chat request-routing and plan-explanation pipeline.

Shallow embedding of the Python sources:
  backend/agent.py       (BaitChatAgent: keyword router, plan generation, safety check)
  backend/explain.py     (PlanExplainer: source parsing, template and LLM explanations)
  backend/qserver.py     (QServerClient: device/plan retrieval, plan submission)
  backend/databroker.py  (DatabrokerClient: simulated scan data)
  src/bait_mcp/server.py (device categorization endpoint)

External effects (HTTP calls, the local LLM, numpy randomness, the Python
`ast` parser, wall-clock time) are modelled as explicit parameters / oracles;
the control flow around them is translated directly from the source.
Python `try`/`except` blocks become `Except` values or explicit fault
parameters; machine floats become `ℚ`.
-/

/-! ## Generic string helpers (Python `in` on strings, `.title()`) -/

/-- `listContainsSub pat hay = true` iff `pat` occurs as a contiguous sublist of
`hay`.  Models Python's substring test `pat in hay`. -/
def listContainsSub (pat : List Char) : List Char → Bool
  | [] => pat.isPrefixOf ([] : List Char)
  | c :: t => pat.isPrefixOf (c :: t) || listContainsSub pat t

/-- `containsSub s pat = true` iff `pat` is a substring of `s`
(Python `pat in s`). -/
def containsSub (s pat : String) : Bool :=
  listContainsSub pat.data s.data

/-- Core of `pyTitle`: the boolean flag records whether the previous character
was alphabetic (Python tracks whether the previous character was cased). -/
def pyTitleAux : Bool → List Char → List Char
  | _, [] => []
  | prevAlpha, c :: rest =>
    if c.isAlpha then
      (if prevAlpha then c.toLower else c.toUpper) :: pyTitleAux true rest
    else
      c :: pyTitleAux false rest

/-- Python `str.title()` for ASCII text: the first alphabetic character of each
word is uppercased, the rest lowercased. -/
def pyTitle (s : String) : String :=
  String.mk (pyTitleAux false s.data)

/-- Python `str.lower()` for ASCII text. -/
def pyLower (s : String) : String :=
  String.mk (s.data.map Char.toLower)

/-- Python `str.startswith(pat)`. -/
def pyStartsWith (s pat : String) : Bool :=
  pat.data.isPrefixOf s.data

/-- Fuel-indexed core of Python `str.replace`: replaces non-overlapping
occurrences of `pat` left to right.  Every step consumes at least one
character (for non-empty `pat`), so fuel `length + 1` is exact. -/
def pyReplaceAux (pat rep : List Char) : ℕ → List Char → List Char
  | 0, l => l
  | _, [] => []
  | fuel + 1, c :: rest =>
    if pat.isPrefixOf (c :: rest) then
      rep ++ pyReplaceAux pat rep fuel (List.drop pat.length (c :: rest))
    else
      c :: pyReplaceAux pat rep fuel rest

/-- Python `s.replace(pat, rep)` for non-empty `pat`. -/
def pyReplace (s pat rep : String) : String :=
  String.mk (pyReplaceAux pat.data rep.data (s.data.length + 1) s.data)

/-! ## Data model (backend/models.py) -/

/-- A Python value as it appears in plan argument lists. -/
inductive PyVal where
  | s (v : String)
  | q (v : ℚ)
  | n (v : ℤ)
  | l (v : List PyVal)

/-- `PlanSubmission` (backend/models.py): plan submission request. -/
structure PlanSubmission where
  name : String
  args : List PyVal
  kwargs : List (String × PyVal)
  metadata : List (String × PyVal)

/-- `AgentResponse` (backend/models.py): `action_taken` and `plan_generated`
default to `None`, `confidence` defaults to `0.0`. -/
structure AgentResponse where
  response : String
  action_taken : Option String := none
  plan_generated : Option PlanSubmission := none
  confidence : ℚ := 0

/-! ## Agent tool stubs (backend/agent.py, lines 375-440) -/

/-- Result of `BaitChatAgent._list_devices` (fixed development stub). -/
def listDevicesStr : String :=
  "Motors: motor_x, motor_y, motor_z, motor_theta\nDetectors: pilatus, i0, diode, scintillator\nTemperature: lakeshore, cryostream\nSample environment: sample_stage, goniometer"

/-- Result of `BaitChatAgent._list_plans` (fixed development stub). -/
def listPlansStr : String :=
  "scan: Continuous scan over a motor range\ncount: Take repeated measurements at current position\nlist_scan: Scan through a list of positions\ngrid_scan: 2D grid scan with two motors\nfly_scan: High-speed continuous acquisition"

/-- Result of `BaitChatAgent._get_last_scan` (fixed development stub). -/
def lastScanStr : String :=
  "Scan ID: a1b2c3d4\nPlan: scan\nMotor: motor_x from 0.0 to 5.0 mm (51 points)\nDetector: pilatus\nDuration: 125.4 seconds\nStatus: completed\nMax counts: 15234"

/-- `BaitChatAgent._explain_plan`: lookup in a fixed dictionary with a generic
default. -/
def explain_plan_tool (plan_name : String) : String :=
  if plan_name = "scan" then
    "The \x27scan\x27 plan moves a motor continuously from start to stop position while collecting detector data at regular intervals."
  else if plan_name = "count" then
    "The \x27count\x27 plan takes repeated measurements at the current position to improve statistics."
  else if plan_name = "list_scan" then
    "The \x27list_scan\x27 plan moves to specific positions from a list and collects data at each point."
  else
    "This plan performs a custom measurement sequence."

/-- `BaitChatAgent._generate_plan`: always returns the fixed default plan,
recording the originating query in the metadata. -/
def generate_plan (query : String) : PlanSubmission :=
  { name := "scan"
    args := [.l [.s "pilatus"], .s "motor_x", .q 0, .q 5, .n 51]
    kwargs := []
    metadata := [("generated_from", .s query)] }

/-! ## Action Router: `BaitChatAgent._simulate_agent_response`
(backend/agent.py, lines 318-373) -/

/-- Device-branch trigger keywords (agent.py line 324). -/
def deviceKeywords : List String := ["motor", "device", "detector", "hardware"]

/-- Plan-branch trigger keywords (agent.py line 333). -/
def planKeywords : List String := ["plan", "scan", "available"]

/-- Scan-action-branch trigger keywords (agent.py line 360). -/
def scanActionKeywords : List String := ["run", "perform", "execute", "scan from"]

/-- Default-branch response text (agent.py line 371). -/
def defaultHelpStr : String :=
  "I can help you with:\n- Listing available devices and plans\n- Checking the last scan\n- Explaining scan plans\n- Creating new scans"

/-- `BaitChatAgent._simulate_agent_response`: keyword classification of the
lowercased query in fixed priority order, first match wins. -/
def simulate_agent_response (query : String) : AgentResponse :=
  let q := pyLower query
  if deviceKeywords.any (fun w => containsSub q w) then
    { response := "Available devices:\n" ++ listDevicesStr
      action_taken := some "list_devices", confidence := 9/10 }
  else if planKeywords.any (fun w => containsSub q w) then
    { response := "Available scan plans:\n" ++ listPlansStr
      action_taken := some "list_plans", confidence := 9/10 }
  else if containsSub q "last" && containsSub q "scan" then
    { response := "Last scan information:\n" ++ lastScanStr
      action_taken := some "get_last_scan", confidence := 19/20 }
  else if containsSub q "explain" || containsSub q "what does" then
    { response := explain_plan_tool "scan"
      action_taken := some "explain_plan", confidence := 17/20 }
  else if scanActionKeywords.any (fun w => containsSub q w) then
    { response := "Generated scan plan. Ready to submit to queue."
      action_taken := some "generate_plan"
      plan_generated := some (generate_plan query), confidence := 3/4 }
  else
    { response := defaultHelpStr, confidence := 1/2 }

/-! ## Safety validation: `BaitChatAgent.validate_plan_safety`
(backend/agent.py, lines 490-520) -/

/-- A generated plan dictionary; absent keys are `none`
(Python `"motor" in plan` tests). -/
structure PlanDict where
  motor : Option String := none
  start : Option ℚ := none
  stop : Option ℚ := none
  num : Option ℤ := none
deriving DecidableEq

/-- The fixed per-motor limits table (agent.py line 504). -/
def motorLimits (m : String) : Option (ℚ × ℚ) :=
  if m = "motor_x" then some (-10, 10)
  else if m = "motor_y" then some (-5, 5)
  else none

/-- `BaitChatAgent.validate_plan_safety`: rejects when `start < min_limit` or
`stop > max_limit` for a motor in the limits table (with both endpoints
present), and independently rejects when `num * 2 > 3600`. -/
def validate_plan_safety (plan : PlanDict) : Bool :=
  let motorReject : Bool :=
    match plan.motor with
    | some m =>
      match motorLimits m, plan.start, plan.stop with
      | some (lo, hi), some a, some b => decide (a < lo) || decide (b > hi)
      | _, _, _ => false
    | none => false
  if motorReject then false
  else
    let durReject : Bool :=
      match plan.num with
      | some n => decide (n * 2 > 3600)
      | none => false
    if durReject then false else true

/-! ## Plan Source Parser: `PlanExplainer._parse_plan_source`
(backend/explain.py, lines 87-140) -/

/-- Plan Source Facts: the `info` dictionary of `_parse_plan_source` with its
default values (`name = "unknown"`, everything else empty). -/
structure PlanInfo where
  name : String := "unknown"
  parameters : List String := []
  docstring : String := ""
  yields : List String := []
  devices : List String := []
  movements : List String := []

/-- A node event of the Python `ast.walk` traversal, in walk order.  The
`ast` library is external to the repository, so the parsed tree is a
parameter of the embedding. -/
inductive PyNode where
  | funcDef (name : String) (args : List String) (doc : Option String)
  | yieldNode (rendering : String)
  | nameNode (ident : String)

/-- Device-name heuristic substrings (explain.py line 121). -/
def devicePatterns : List String := ["motor", "detector", "pilatus", "sample"]

/-- One step of the `ast.walk` loop of `_parse_plan_source`: function
definitions overwrite `name`/`parameters` (and `docstring` when present),
yields append, identifiers matching the device heuristic are added to
`devices` with duplicates suppressed. -/
def applyNode (info : PlanInfo) : PyNode → PlanInfo
  | .funcDef nm args doc =>
    let info := { info with name := nm, parameters := args }
    match doc with
    | some d => { info with docstring := d }
    | none => info
  | .yieldNode r => { info with yields := info.yields ++ [r] }
  | .nameNode id =>
    if devicePatterns.any (fun p => containsSub (pyLower id) p) then
      if info.devices.contains id then info
      else { info with devices := info.devices ++ [id] }
    else info

/-- Scans for the lazy group of a Python regex `LIT\((.*?)\)` at the current
position: the characters up to the first `)`; fails if a newline or the end
of input comes first (`.` does not match a newline). -/
def findGroup : List Char → Option (List Char × List Char)
  | [] => none
  | c :: rest =>
    if c = ')' then some ([], rest)
    else if c = '\n' then none
    else
      match findGroup rest with
      | some (g, r) => some (c :: g, r)
      | none => none

/-- Fuel-indexed scan of `re.findall(lit ++ "\\((.*?)\\)", text)`: at each
position try the literal prefix followed by a lazy group; on success resume
after the closing parenthesis, otherwise advance one character.  Every step
consumes at least one character, so fuel `length + 1` is exact. -/
def findAllAux (lit : List Char) : ℕ → List Char → List (List Char)
  | 0, _ => []
  | _, [] => []
  | fuel + 1, c :: rest =>
    if lit.isPrefixOf (c :: rest) then
      match findGroup (List.drop lit.length (c :: rest)) with
      | some (g, r) => g :: findAllAux lit fuel r
      | none => findAllAux lit fuel rest
    else findAllAux lit fuel rest

/-- `re.findall(lit ++ "\\((.*?)\\)", s)`: the group captures of all
non-overlapping matches, left to right. -/
def findAll (lit : String) (s : String) : List String :=
  (findAllAux (lit.data ++ ['(']) (s.data.length + 1) s.data).map String.mk

/-- The four fixed movement patterns of `_parse_plan_source`
(explain.py lines 126-131), applied in pattern order then match order. -/
def regexMovements (source : String) : List String :=
  findAll "mv" source ++ findAll "scan" source ++
    findAll "count" source ++ findAll "list_scan" source

/-- `PlanExplainer._parse_plan_source`: `parsed = none` models `ast.parse`
raising on malformed source, in which case the `except` branch returns the
defaults untouched — in particular the movement regex scan, which sits after
the tree walk inside the same `try` block, is skipped. -/
def parse_plan_source (source : String) (parsed : Option (List PyNode)) : PlanInfo :=
  match parsed with
  | none => {}
  | some nodes =>
    let info := nodes.foldl applyNode {}
    { info with movements := info.movements ++ regexMovements source }

/-! ## Explanation templates (backend/explain.py, lines 224-392) -/

/-- Per-parameter description line of `_explain_scan_plan`
(explain.py lines 279-292). -/
def scanParamLine (p : String) : String :=
  if p = "detectors" then
    "- Detectors: Instruments that collect data (e.g., Pilatus detector for X-ray images)\n"
  else if p = "motor" then
    "- Motor: The device being moved (e.g., sample stage, goniometer)\n"
  else if p = "start" then
    "- Start position: Where the scan begins (in mm or degrees)\n"
  else if p = "stop" then
    "- Stop position: Where the scan ends\n"
  else if p = "num" then
    "- Number of points: How many measurements to take\n"
  else if p = "time" then
    "- Exposure time: How long to collect data at each point (seconds)\n"
  else
    "- " ++ p ++ ": Configuration parameter\n"

/-- `PlanExplainer._explain_scan_plan`. -/
def explain_scan_plan (name : String) (params : List String)
    (_devices : List String) (doc : String) : String :=
  "**" ++
    (pyTitle (pyReplace name "_" " ") ++ " Plan**\n\n" ++
     (if doc ≠ "" then doc ++ "\n\n"
      else "This plan performs a continuous scan by moving a motor through a range of positions while collecting data.\n\n") ++
     "**How it works:**\n1. The motor moves from a starting position to an ending position\n2. Data is collected at regular intervals during the movement\n3. Detectors record measurements at each position\n\n" ++
     (if params ≠ [] then
        "**Parameters needed:**\n" ++ String.join (params.map scanParamLine)
      else "") ++
     "\n**Typical use:** Mapping sample properties as a function of position, such as absorption scans or diffraction patterns across a sample.")

/-- `PlanExplainer._explain_count_plan`. -/
def explain_count_plan (name : String) (params : List String)
    (_devices : List String) (doc : String) : String :=
  "**" ++
    (pyTitle (pyReplace name "_" " ") ++ " Plan**\n\n" ++
     (if doc ≠ "" then doc ++ "\n\n"
      else "This plan takes repeated measurements at a fixed position.\n\n") ++
     "**How it works:**\n1. All motors remain at their current positions\n2. Detectors collect data for a specified time or number of readings\n3. Results are averaged or summed to improve statistics\n\n" ++
     (if params ≠ [] then
        "**Parameters needed:**\n" ++
        (if params.contains "detectors" then "- Detectors: Which instruments to read from\n" else "") ++
        (if params.contains "num" then "- Number of counts: How many readings to take\n" else "") ++
        (if params.contains "delay" || params.contains "time" then
          "- Time/Delay: Duration of each measurement or time between measurements\n" else "")
      else "") ++
     "\n**Typical use:** Collecting statistics at a single point, measuring beam intensity, or checking detector response.")

/-- `PlanExplainer._explain_list_scan`. -/
def explain_list_scan (name : String) (params : List String)
    (_devices : List String) (doc : String) : String :=
  "**" ++
    (pyTitle (pyReplace name "_" " ") ++ " Plan**\n\n" ++
     (if doc ≠ "" then doc ++ "\n\n"
      else "This plan moves to specific positions from a list and collects data at each point.\n\n") ++
     "**How it works:**\n1. The motor moves to each position in a predefined list\n2. At each position, the system waits for stability\n3. Data is collected from all specified detectors\n4. The process repeats for all positions in the list\n\n" ++
     (if params ≠ [] then
        "**Parameters needed:**\n- Detectors: Instruments for data collection\n- Motor: The device to move\n- Position list: Specific positions to visit (e.g., [0, 1.5, 3.2, 5.0] mm)\n"
      else "") ++
     "\n**Typical use:** Measuring at specific points of interest, returning to previously identified features, or non-uniform sampling.")

/-- `PlanExplainer._explain_generic_plan`. -/
def explain_generic_plan (name : String) (params : List String)
    (devices : List String) (doc : String) : String :=
  "**" ++
    (pyTitle (pyReplace name "_" " ") ++ " Plan**\n\n" ++
     (if doc ≠ "" then doc ++ "\n\n" else "This is a custom measurement plan.\n\n") ++
     (if params ≠ [] then
        "**Parameters:**\n" ++ String.join (params.map (fun p => "- " ++ p ++ "\n")) ++ "\n"
      else "") ++
     (if devices ≠ [] then
        "**Devices used:** " ++ String.intercalate ", " devices ++ "\n\n"
      else "") ++
     "For more details about this plan, please consult the beamline documentation or contact beamline staff.")

/-- The optional context map of `explain`; Python passes a dict and the
template appends `sample` and `energy` lines when those keys are present
(values rendered as text). -/
structure ExplainContext where
  sample : Option String := none
  energy : Option String := none

/-- Context-append step of `_generate_template_explanation`
(explain.py lines 247-252): a `sample` line then an `energy` line, in that
fixed order, when the keys are present. -/
def appendContext (expl : String) : Option ExplainContext → String
  | none => expl
  | some c =>
    let expl :=
      match c.sample with
      | some s => expl ++ "\n\nThis will be performed on sample: " ++ s
      | none => expl
    match c.energy with
    | some e => expl ++ "\nBeam energy: " ++ e ++ " keV"
    | none => expl

/-- `PlanExplainer._generate_template_explanation`: template dispatch on the
lowercased plan name — `scan` first, then `count`, then `list`, else generic
— followed by the optional context lines. -/
def generate_template_explanation (info : PlanInfo) (ctx : Option ExplainContext) : String :=
  let base :=
    if containsSub (pyLower info.name) "scan" then
      explain_scan_plan info.name info.parameters info.devices info.docstring
    else if containsSub (pyLower info.name) "count" then
      explain_count_plan info.name info.parameters info.devices info.docstring
    else if containsSub (pyLower info.name) "list" then
      explain_list_scan info.name info.parameters info.devices info.docstring
    else
      explain_generic_plan info.name info.parameters info.devices info.docstring
  appendContext base ctx

/-! ## Generative path: `PlanExplainer._generate_local_explanation`
(backend/explain.py, lines 177-222) -/

/-- Outcomes of the two local-LLM calls (`generate_chat`, then
`generate_text` as fallback); `Except.error` models the call raising. -/
structure LLMOracle where
  chatResult : Except Unit String
  textResult : Except Unit String

/-- The quality gate of `_generate_local_explanation` (explain.py line 212):
`if explanation and len(explanation) > 50`, return verbatim, else fall back
to the template. -/
def qualityGate (reply : String) (info : PlanInfo) (ctx : Option ExplainContext) : String :=
  if reply ≠ "" ∧ reply.length > 50 then reply
  else generate_template_explanation info ctx

/-- `PlanExplainer._generate_local_explanation`: chat completion, falling
back to text completion, falling back to the template; a sufficiently long
reply is returned verbatim, a poor reply falls back to the template.  (The
prompt only feeds the external LLM call, which the oracle models.) -/
def generate_local_explanation (info : PlanInfo) (ctx : Option ExplainContext)
    (llm : LLMOracle) : String :=
  match llm.chatResult with
  | .ok reply => qualityGate reply info ctx
  | .error _ =>
    match llm.textResult with
    | .ok reply => qualityGate reply info ctx
    | .error _ => generate_template_explanation info ctx

/-! ## `PlanExplainer.explain` (backend/explain.py, lines 45-85) -/

/-- The fixed failure string of `explain`'s `except` branch. -/
def explainFailureStr : String := "Unable to generate explanation for this plan."

/-- The body of `explain`'s `try` block.  `fault = true` models an exception
raised at an await point inside the block (e.g. cancellation of the awaited
LLM coroutine), against which the blanket `except` guards; the pure steps of
the block cannot themselves raise.  `self.llm` is always `None` in this
code, so the non-local branch always takes the template fallback. -/
def explainBody (source : String) (parsed : Option (List PyNode))
    (ctx : Option ExplainContext) (provider : String) (llm : LLMOracle)
    (fault : Bool) : Except Unit String :=
  if fault then .error ()
  else
    let info := parse_plan_source source parsed
    if provider = "lmstudio" || provider = "ollama" then
      .ok (generate_local_explanation info ctx llm)
    else
      .ok (generate_template_explanation info ctx)

/-- `PlanExplainer.explain`: the `try` body, with any exception converted to
the fixed failure string. -/
def explain (source : String) (parsed : Option (List PyNode))
    (ctx : Option ExplainContext) (provider : String) (llm : LLMOracle)
    (fault : Bool) : String :=
  match explainBody source parsed ctx provider llm fault with
  | .ok s => s
  | .error _ => explainFailureStr

/-! ## Device/Plan Gateway: `QServerClient` (backend/qserver.py) -/

/-- Outcome of one `aiohttp` request: a response with an HTTP status, parsed
JSON body and raw text, or a raised transport/timeout exception. -/
inductive HttpResult (α : Type) where
  | ok (status : ℕ) (body : α) (text : String)
  | exn (msg : String)

/-- `HttpResult` is a 200-status response. -/
def HttpResult.isOk200 : HttpResult α → Bool
  | .ok status _ _ => status = 200
  | .exn _ => false

/-- A raw device record of the QServer `/devices/allowed` payload; absent
JSON keys are `none` (Python `info.get(key, default)`). -/
structure RawDevice where
  device_class : Option String := none
  description : Option String := none
  components : List String := []
  is_readable : Option Bool := none
  is_movable : Option Bool := none

/-- A formatted device record as built by `QServerClient.get_devices`. -/
structure FormattedDevice where
  name : String
  type : String
  description : String
  components : List String
  is_readable : Bool
  is_movable : Bool

/-- Per-device formatting step of `QServerClient.get_devices`
(qserver.py lines 67-75). -/
def formatDevice (nd : String × RawDevice) : FormattedDevice :=
  { name := nd.1
    type := nd.2.device_class.getD "unknown"
    description := nd.2.description.getD ""
    components := nd.2.components
    is_readable := nd.2.is_readable.getD true
    is_movable := nd.2.is_movable.getD false }

/-- `QServerClient.get_devices` (qserver.py lines 51-85): formats the
devices mapping of a 200 response in iteration order; any non-200 status or
raised exception yields the empty list. -/
def qserver_get_devices (r : HttpResult (List (String × RawDevice))) :
    List FormattedDevice :=
  match r with
  | .ok status devices _ =>
    if status = 200 then devices.map formatDevice else []
  | .exn _ => []

/-- A raw plan record of the QServer `/plans/allowed` payload. -/
structure RawPlan where
  description : Option String := none
  parameters : List String := []
  module : Option String := none
  is_generator : Option Bool := none

/-- A formatted plan record as built by `QServerClient.get_plans`. -/
structure FormattedPlan where
  name : String
  description : String
  parameters : List String
  module : String
  is_generator : Bool

/-- `QServerClient.get_plans` (qserver.py lines 87-120): formats the plans
mapping of a 200 response in iteration order; any non-200 status or raised
exception yields the empty list. -/
def qserver_get_plans (r : HttpResult (List (String × RawPlan))) :
    List FormattedPlan :=
  match r with
  | .ok status plans _ =>
    if status = 200 then
      plans.map (fun np =>
        { name := np.1
          description := np.2.description.getD ""
          parameters := np.2.parameters
          module := np.2.module.getD ""
          is_generator := np.2.is_generator.getD true })
    else []
  | .exn _ => []

/-- `QServerClient.submit_plan` (qserver.py lines 160-195): a plan without a
`name` raises `ValueError`; a non-200 response raises
`Exception("Plan submission failed: ...")`; the blanket `except` logs and
RE-RAISES (`raise`), so every failure propagates past the Gateway boundary.
`Except.error` is the raised exception. -/
def submit_plan (hasName : Bool) (r : HttpResult (List (String × String))) :
    Except String (List (String × String)) :=
  if !hasName then .error "Plan must have a \x27name\x27 field"
  else
    match r with
    | .ok status data text =>
      if status = 200 then .ok data
      else .error ("Plan submission failed: " ++ text)
    | .exn msg => .error msg

/-! ## Scan History Store: `DatabrokerClient.get_scan_data`
(backend/databroker.py, lines 176-219) -/

/-- `np.linspace a b n` with endpoint (the development stub uses
`np.linspace(0, 5, 51)`). -/
def linspace (a b : ℚ) (n : ℕ) : List ℚ :=
  (List.range n).map (fun (i : ℕ) => a + (b - a) * (i : ℚ) / ((n : ℚ) - 1))

/-- The `data` mapping returned by `get_scan_data`: four named channels. -/
structure ScanDataChannels where
  motor_x : List ℚ
  pilatus : List ℚ
  i0 : List ℚ
  timestamp : List String

/-- `DatabrokerClient.get_scan_data` (simulated data path): `expFn` models
`np.exp`, `rand1`/`rand2` the two `np.random.random(51)` draws, `isoTime`
the per-index `datetime.now() - timedelta(seconds=i)` ISO strings — all
external library calls.  Every channel is built over 51 points. -/
def get_scan_data (scan_id stream : String) (expFn : ℚ → ℚ)
    (rand1 rand2 : ℕ → ℚ) (isoTime : ℕ → String) :
    String × String × ScanDataChannels :=
  let x_data := linspace 0 5 51
  let noise1 := (List.range 51).map rand1
  let y_data := List.zipWith
    (fun x r => 1000 * expFn (-((x - 5/2) ^ 2) / (1/2)) + 100 * r) x_data noise1
  (scan_id, stream,
    { motor_x := x_data
      pilatus := y_data
      i0 := (List.range 51).map (fun i => 1000 + 50 * rand2 i)
      timestamp := (List.range 51).map isoTime })

/-! ## Device categorization endpoint: `get_devices`
(src/bait_mcp/server.py, lines 96-158) -/

/-- A raw device record of the `devices_allowed` payload consumed by the
bait_mcp endpoint. -/
structure QservDeviceInfo where
  description : Option String := none
  device_class : Option String := none
  module : Option String := none
  classname : Option String := none
deriving DecidableEq

/-- One organized device entry as built by the endpoint. -/
structure OrganizedDevice where
  type : String
  description : String
  module : String
  classname : String
deriving DecidableEq

/-- The three category buckets of `organized_devices`; each bucket is a dict
keyed by device name, preserving insertion order. -/
structure OrganizedDevices where
  motors : List (String × OrganizedDevice) := []
  detectors : List (String × OrganizedDevice) := []
  other : List (String × OrganizedDevice) := []
deriving DecidableEq

/-- Name-pattern classification of one device (server.py lines 110-130):
returns the chosen bucket name and the entry.  `startswith("m")` is tested on
the ORIGINAL name, the substring tests on the lowercased name. -/
def organizeDevice (name : String) (info : QservDeviceInfo) :
    String × OrganizedDevice :=
  let n := pyLower name
  let td : String × String :=
    if containsSub n "motor" || pyStartsWith name "m" then
      ("motors", "Motor: " ++ name)
    else if containsSub n "det" || containsSub n "scaler" then
      ("detectors", "Detector: " ++ name)
    else if containsSub n "shutter" then
      ("other", "Shutter: " ++ name)
    else
      ("other", "Device: " ++ name)
  (td.1,
    { type := info.device_class.getD "Unknown"
      description := info.description.getD td.2
      module := info.module.getD ""
      classname := info.classname.getD "" })

/-- The categorization loop of the bait_mcp `get_devices` endpoint: each
device of the payload, in iteration order, is appended to its bucket. -/
def organize_devices (devs : List (String × QservDeviceInfo)) : OrganizedDevices :=
  devs.foldl
    (fun acc nd =>
      let r := organizeDevice nd.1 nd.2
      if r.1 = "motors" then { acc with motors := acc.motors ++ [(nd.1, r.2)] }
      else if r.1 = "detectors" then
        { acc with detectors := acc.detectors ++ [(nd.1, r.2)] }
      else { acc with other := acc.other ++ [(nd.1, r.2)] })
    {}

/-- The two-device mock of the end-to-end categorization scenario. -/
def mockTwoDevices : List (String × QservDeviceInfo) :=
  [("motor_x", {}), ("pilatus", {})]

/-! ## `BaitChatAgent.process_query` and the local-LLM path
(backend/agent.py, lines 171-316) -/

/-- `BaitChatAgent._parse_action_from_response` (agent.py lines 277-294):
keyword classification of the generated reply text. -/
def parse_action_from_response (response : String) : Option String :=
  let r := pyLower response
  if containsSub r "list_devices" || containsSub r "available motors" then
    some "list_devices"
  else if containsSub r "list_plans" || containsSub r "available plans" then
    some "list_plans"
  else if containsSub r "last_scan" || containsSub r "recent scan" then
    some "get_last_scan"
  else if containsSub r "explain" then some "explain_plan"
  else if containsSub r "generate_plan" || containsSub r "create scan" then
    some "generate_plan"
  else if containsSub r "queue" then some "manage_queue"
  else none

/-- Python `repr` of the fixed generated plan's argument list (the generated
plan is the constant returned by `_generate_plan`). -/
def generatedPlanArgsRepr : String :=
  "[[\x27pilatus\x27], \x27motor_x\x27, 0.0, 5.0, 51]"

/-- `BaitChatAgent._execute_tool_action` (agent.py lines 296-316); every
branch is a local stub, so the inner `try` body cannot raise. -/
def execute_tool_action (action query : String) : String :=
  if action = "list_devices" then listDevicesStr
  else if action = "list_plans" then listPlansStr
  else if action = "get_last_scan" then lastScanStr
  else if action = "explain_plan" then explain_plan_tool "scan"
  else if action = "generate_plan" then
    "Generated plan: " ++ (generate_plan query).name ++ " with args " ++
      generatedPlanArgsRepr
  else if action = "manage_queue" then
    "Queue: 2 plans pending\n1. scan(motor_x, 0-5mm)\n2. count(pilatus, 10)"
  else "Action not implemented"

/-- External outcomes for one `process_query` call: the local-LLM chat reply
(or its raised exception), and `fault`, an exception raised at an await
point inside `process_query`'s `try` block (e.g. cancellation), against
which the blanket `except` guards. -/
structure ProcessOracle where
  llmChat : Except Unit String := .error ()
  fault : Option String := none

/-- `BaitChatAgent._process_with_local_llm` (agent.py lines 207-275): a chat
reply is classified and the matching tool result appended (confidence 0.8),
an unclassified reply is returned alone (confidence 0.6), and any exception
falls back to `_simulate_agent_response`. -/
def process_with_local_llm (query : String) (oracle : ProcessOracle) :
    AgentResponse :=
  match oracle.llmChat with
  | .error _ => simulate_agent_response query
  | .ok llmResponse =>
    match parse_action_from_response llmResponse with
    | some action =>
      { response := llmResponse ++ "\n\n" ++ execute_tool_action action query
        action_taken := some action
        confidence := 4/5 }
    | none => { response := llmResponse, confidence := 3/5 }

/-- The body of `process_query`'s `try` block.  `initialize` catches its own
exceptions and only sets a flag, so it is elided; an injected `fault` is the
only way the guarded block can raise. -/
def process_query_body (query provider : String) (oracle : ProcessOracle) :
    Except String AgentResponse :=
  match oracle.fault with
  | some msg => .error msg
  | none =>
    if provider = "lmstudio" || provider = "ollama" then
      .ok (process_with_local_llm query oracle)
    else
      .ok (simulate_agent_response query)

/-- The fixed response text of `process_query`'s `except` branch. -/
def processErrorStr : String :=
  "I encountered an error processing your request. Please try again."

/-- `BaitChatAgent.process_query` (agent.py lines 171-205): the `try` body,
with any exception converted to the fixed error response
(`AgentResponse(response=..., confidence=0.0)`, the remaining fields at
their pydantic defaults). -/
def process_query (query provider : String) (oracle : ProcessOracle) :
    AgentResponse :=
  match process_query_body query provider oracle with
  | .ok r => r
  | .error _ => { response := processErrorStr, confidence := 0 }

/-- A malformed plan source: the movement pattern matches `mv(motor_x, 5)`
in the raw text, but Python `ast.parse` raises `SyntaxError` on the second
line. -/
def brokenSrc : String := "mv(motor_x, 5)\ndef broken(:"

/-! # Theorems -/

/-- A string with non-empty character data is not the empty string. -/
theorem str_data_eq_nil (s : String) (h : s.data = []) : s = "" := by
  cases s with
  | mk d => simp_all

theorem str_ne_empty_of_data (s : String) (h : s.data ≠ []) : s ≠ "" := by
  intro hc
  subst hc
  exact h rfl

theorem append_ne_empty_left (a b : String) (h : a ≠ "") : a ++ b ≠ "" := by
  apply str_ne_empty_of_data
  rw [String.data_append]
  intro hc
  exact h (str_data_eq_nil a (List.append_eq_nil.mp hc).1)

theorem explain_scan_plan_ne_empty (n : String) (p d : List String) (doc : String) :
    explain_scan_plan n p d doc ≠ "" := by
  unfold explain_scan_plan
  exact append_ne_empty_left _ _ (by decide)

theorem explain_count_plan_ne_empty (n : String) (p d : List String) (doc : String) :
    explain_count_plan n p d doc ≠ "" := by
  unfold explain_count_plan
  exact append_ne_empty_left _ _ (by decide)

theorem explain_list_scan_ne_empty (n : String) (p d : List String) (doc : String) :
    explain_list_scan n p d doc ≠ "" := by
  unfold explain_list_scan
  exact append_ne_empty_left _ _ (by decide)

theorem explain_generic_plan_ne_empty (n : String) (p d : List String) (doc : String) :
    explain_generic_plan n p d doc ≠ "" := by
  unfold explain_generic_plan
  exact append_ne_empty_left _ _ (by decide)

theorem appendContext_ne_empty (expl : String) (ctx : Option ExplainContext)
    (h : expl ≠ "") : appendContext expl ctx ≠ "" := by
  cases ctx with
  | none => exact h
  | some c =>
    simp only [appendContext]
    cases c.sample with
    | none =>
      cases c.energy with
      | none => exact h
      | some e =>
        exact append_ne_empty_left _ _
          (append_ne_empty_left _ _ (append_ne_empty_left _ _ h))
    | some s =>
      cases c.energy with
      | none => exact append_ne_empty_left _ _ (append_ne_empty_left _ _ h)
      | some e =>
        exact append_ne_empty_left _ _
          (append_ne_empty_left _ _
            (append_ne_empty_left _ _
              (append_ne_empty_left _ _ (append_ne_empty_left _ _ h))))

theorem generate_template_explanation_ne_empty (info : PlanInfo)
    (ctx : Option ExplainContext) : generate_template_explanation info ctx ≠ "" := by
  unfold generate_template_explanation
  apply appendContext_ne_empty
  repeat' split
  · exact explain_scan_plan_ne_empty _ _ _ _
  · exact explain_count_plan_ne_empty _ _ _ _
  · exact explain_list_scan_ne_empty _ _ _ _
  · exact explain_generic_plan_ne_empty _ _ _ _

theorem qualityGate_ne_empty (reply : String) (info : PlanInfo)
    (ctx : Option ExplainContext) : qualityGate reply info ctx ≠ "" := by
  unfold qualityGate
  split
  · rename_i h
    exact h.1
  · exact generate_template_explanation_ne_empty _ _

theorem generate_local_explanation_ne_empty (info : PlanInfo)
    (ctx : Option ExplainContext) (llm : LLMOracle) :
    generate_local_explanation info ctx llm ≠ "" := by
  unfold generate_local_explanation
  cases llm.chatResult with
  | ok r => exact qualityGate_ne_empty _ _ _
  | error e =>
    cases llm.textResult with
    | ok r => exact qualityGate_ne_empty _ _ _
    | error e2 => exact generate_template_explanation_ne_empty _ _

/-- C1: a query whose lowercased text contains a device keyword ("motor",
"device", "detector", "hardware") is routed to the `list_devices` action
with confidence 0.9, whatever other keywords the query contains — the
device branch is tested first and the first match wins. -/
theorem c1_device_keyword_wins (query : String)
    (h : deviceKeywords.any (fun w => containsSub (pyLower query) w) = true) :
    (simulate_agent_response query).action_taken = some "list_devices" ∧
    (simulate_agent_response query).confidence = 9/10 := by
  unfold simulate_agent_response
  simp [h]

/-- C1 witness: an adversarial query containing keywords of every branch is
still routed to `list_devices`. -/
theorem c1_device_keyword_wins_witness :
    deviceKeywords.any
      (fun w => containsSub (pyLower "Run a scan plan to explain the last motor available") w) = true ∧
    ((simulate_agent_response "Run a scan plan to explain the last motor available").action_taken
        = some "list_devices" ∧
      (simulate_agent_response "Run a scan plan to explain the last motor available").confidence
        = 9/10) :=
  ⟨by decide, c1_device_keyword_wins _ (by decide)⟩

/-- C3 counterexample: the plan `motor_x` from 0 to -20 has its `stop` far
outside the configured limits (-10, 10), yet `validate_plan_safety` accepts
it — the code only tests `start < min` and `stop > max`, never
`stop < min`. -/
theorem c3_cex_outside_limits_accepted :
    validate_plan_safety
        { motor := some "motor_x", start := some 0, stop := some (-20), num := some 100 } = true ∧
    motorLimits "motor_x" = some (-10, 10) ∧
    ((-20 : ℚ) < -10 ∧ ¬((0 : ℚ) < -10)) := by decide

/-- C3 (amended): `validate_plan_safety` rejects any plan of a configured
motor with both endpoints present whose `start` is below the minimum limit
or whose `stop` is above the maximum limit (it does not test the other two
out-of-range directions); independently rejects any plan whose `num * 2`
exceeds 3600; and accepts a `motor_x` plan whose `start` is at least -10,
whose `stop` is at most 10, and whose `num * 2` is at most 3600. -/
theorem c3_safety_rejections :
    (∀ (plan : PlanDict) (m : String) (lo hi a b : ℚ),
        plan.motor = some m → motorLimits m = some (lo, hi) →
        plan.start = some a → plan.stop = some b → (a < lo ∨ b > hi) →
        validate_plan_safety plan = false) ∧
    (∀ (plan : PlanDict) (n : ℤ), plan.num = some n → n * 2 > 3600 →
        validate_plan_safety plan = false) ∧
    (∀ (a b : ℚ) (n : ℤ), -10 ≤ a → b ≤ 10 → n * 2 ≤ 3600 →
        validate_plan_safety
          { motor := some "motor_x", start := some a, stop := some b, num := some n } = true) := by
  refine ⟨?_, ?_, ?_⟩
  · intro plan m lo hi a b hm hl ha hb hab
    rcases hab with h | h <;> simp [validate_plan_safety, hm, hl, ha, hb, h]
  · intro plan n hn h2
    simp only [validate_plan_safety]
    split
    · rfl
    · simp [hn, h2]
  · intro a b n h1 h2 h3
    have ha : ¬(a < -10) := not_lt.mpr h1
    have hb : ¬(b > 10) := not_lt.mpr h2
    have hn : ¬(n * 2 > 3600) := not_lt.mpr h3
    simp [validate_plan_safety, motorLimits, ha, hb, hn]

/-- C3 witness: a start below the minimum is rejected, an overlong scan is
rejected, and the in-range example (`num = 100`) is accepted. -/
theorem c3_safety_rejections_witness :
    validate_plan_safety
        { motor := some "motor_x", start := some (-15), stop := some 0, num := none } = false ∧
    validate_plan_safety { motor := none, start := none, stop := none, num := some 2000 } = false ∧
    validate_plan_safety
        { motor := some "motor_x", start := some 0, stop := some 5, num := some 100 } = true :=
  ⟨c3_safety_rejections.1 _ "motor_x" (-10) 10 (-15) 0 rfl (by decide) rfl rfl
      (Or.inl (by norm_num)),
    c3_safety_rejections.2.1 _ 2000 rfl (by decide),
    c3_safety_rejections.2.2 0 5 100 (by norm_num) (by norm_num) (by decide)⟩

/-- C10: whenever an exception is raised inside `process_query`'s guarded
block, the returned `AgentResponse` is exactly the fixed error text with
confidence 0.0, no action taken, and no plan generated. -/
theorem c10_process_query_error_envelope (query provider : String)
    (oracle : ProcessOracle) (msg : String) (h : oracle.fault = some msg) :
    process_query query provider oracle =
      { response := processErrorStr, action_taken := none,
        plan_generated := none, confidence := 0 } := by
  unfold process_query process_query_body
  rw [h]

/-- C10 witness: a fault injected during a concrete query yields the fixed
error envelope. -/
theorem c10_process_query_error_envelope_witness :
    ({ llmChat := .error (), fault := some "boom" } : ProcessOracle).fault = some "boom" ∧
    process_query "scan please" "lmstudio" { llmChat := .error (), fault := some "boom" } =
      { response := processErrorStr, action_taken := none,
        plan_generated := none, confidence := 0 } :=
  ⟨rfl, c10_process_query_error_envelope _ _ _ _ rfl⟩

/-- C2: `explain` never returns the empty string — on success it yields a
non-empty (possibly degraded template) explanation for every plan source,
including malformed ones — and any exception raised inside the guarded
block yields exactly the fixed failure string, never a propagated error. -/
theorem c2_explain_total_nonempty (source : String) (parsed : Option (List PyNode))
    (ctx : Option ExplainContext) (provider : String) (llm : LLMOracle) (fault : Bool) :
    explain source parsed ctx provider llm fault ≠ "" ∧
    (fault = true → explain source parsed ctx provider llm fault = explainFailureStr) := by
  constructor
  · unfold explain explainBody
    cases fault with
    | true =>
      show explainFailureStr ≠ ""
      decide
    | false =>
      rcases hcond : (provider = "lmstudio" || provider = "ollama") with _ | _
      · simpa [hcond] using
          generate_template_explanation_ne_empty (parse_plan_source source parsed) ctx
      · simpa [hcond] using
          generate_local_explanation_ne_empty (parse_plan_source source parsed) ctx llm
  · intro hf
    subst hf
    rfl

/-- C2 witness: a malformed source yields a non-empty degraded explanation,
and an injected exception yields the fixed failure string. -/
theorem c2_explain_total_nonempty_witness :
    explain brokenSrc none none "lmstudio"
        { chatResult := .error (), textResult := .error () } false ≠ "" ∧
    explain brokenSrc none none "lmstudio"
        { chatResult := .error (), textResult := .error () } true = explainFailureStr :=
  ⟨(c2_explain_total_nonempty _ _ _ _ _ _).1,
    (c2_explain_total_nonempty _ _ _ _ _ _).2 rfl⟩

/-- C4: the template path dispatches on the lowercased plan name in the
fixed priority order scan > count > list > generic, first match wins. -/
theorem c4_template_priority (info : PlanInfo) (ctx : Option ExplainContext) :
    (containsSub (pyLower info.name) "scan" = true →
      generate_template_explanation info ctx =
        appendContext
          (explain_scan_plan info.name info.parameters info.devices info.docstring) ctx) ∧
    (containsSub (pyLower info.name) "scan" = false →
      containsSub (pyLower info.name) "count" = true →
      generate_template_explanation info ctx =
        appendContext
          (explain_count_plan info.name info.parameters info.devices info.docstring) ctx) ∧
    (containsSub (pyLower info.name) "scan" = false →
      containsSub (pyLower info.name) "count" = false →
      containsSub (pyLower info.name) "list" = true →
      generate_template_explanation info ctx =
        appendContext
          (explain_list_scan info.name info.parameters info.devices info.docstring) ctx) ∧
    (containsSub (pyLower info.name) "scan" = false →
      containsSub (pyLower info.name) "count" = false →
      containsSub (pyLower info.name) "list" = false →
      generate_template_explanation info ctx =
        appendContext
          (explain_generic_plan info.name info.parameters info.devices info.docstring) ctx) := by
  refine ⟨?_, ?_, ?_, ?_⟩ <;> intros <;> simp_all [generate_template_explanation]

/-- C4 witness: a plan name containing "scan", "count" and "list" at once is
rendered with the scan template. -/
theorem c4_template_priority_witness :
    containsSub (pyLower "rel_scan_count_list") "scan" = true ∧
    generate_template_explanation { name := "rel_scan_count_list" } none =
      appendContext (explain_scan_plan "rel_scan_count_list" [] [] "") none :=
  ⟨by decide, (c4_template_priority { name := "rel_scan_count_list" } none).1 (by decide)⟩

/-- C5 counterexample: a transport error raised during `submit_plan` is
logged and RE-RAISED past the Gateway boundary, contradicting "for every
Gateway operation ... never raised past the Gateway boundary". -/
theorem c5_cex_submit_plan_raises :
    submit_plan true (.exn "Connection timeout") = Except.error "Connection timeout" := rfl

/-- C5 (amended): the read operations `get_devices` and `get_plans` convert
every HTTP-level (non-200) or transport-level failure into the empty list,
indistinguishable from an empty registry; `submit_plan`, however, re-raises
its exceptions. -/
theorem c5_read_ops_swallow_failures (rd : HttpResult (List (String × RawDevice)))
    (rp : HttpResult (List (String × RawPlan)))
    (hd : rd.isOk200 = false) (hp : rp.isOk200 = false) :
    qserver_get_devices rd = [] ∧ qserver_get_plans rp = [] := by
  constructor
  · cases rd with
    | ok status b t =>
      simp only [HttpResult.isOk200, decide_eq_false_iff_not] at hd
      simp [qserver_get_devices, hd]
    | exn m => rfl
  · cases rp with
    | ok status b t =>
      simp only [HttpResult.isOk200, decide_eq_false_iff_not] at hp
      simp [qserver_get_plans, hp]
    | exn m => rfl

/-- C5 witness: a transport error and a 500 response both yield the empty
list from the read operations. -/
theorem c5_read_ops_swallow_failures_witness :
    ((.exn "timeout" : HttpResult (List (String × RawDevice))).isOk200 = false ∧
      (.ok 500 [] "err" : HttpResult (List (String × RawPlan))).isOk200 = false) ∧
    (qserver_get_devices (.exn "timeout") = [] ∧ qserver_get_plans (.ok 500 [] "err") = []) :=
  ⟨⟨rfl, by decide⟩, c5_read_ops_swallow_failures _ _ rfl (by decide)⟩

theorem applyNode_movements (info : PlanInfo) (n : PyNode) :
    (applyNode info n).movements = info.movements := by
  cases n with
  | funcDef nm args doc => cases doc <;> rfl
  | yieldNode r => rfl
  | nameNode id =>
    simp only [applyNode]
    split
    · split <;> rfl
    · rfl

theorem foldl_applyNode_movements (nodes : List PyNode) (info : PlanInfo) :
    (nodes.foldl applyNode info).movements = info.movements := by
  induction nodes generalizing info with
  | nil => rfl
  | cons n ns ih => rw [List.foldl_cons, ih, applyNode_movements]

/-- C6 counterexample: on a source that `ast.parse` rejects, the produced
facts have empty `movements` even though the textual movement patterns do
match the raw text — the regex scan does NOT run independently of the tree
walk. -/
theorem c6_cex_parse_failure_skips_regex :
    (parse_plan_source brokenSrc none).movements = [] ∧
    regexMovements brokenSrc = ["motor_x, 5"] := by decide

/-- C6 (amended): `movements` equals the pattern matches of the raw text
(in pattern order then match order) exactly when the syntax-tree parse
succeeds; when the parse fails the whole `try` block is abandoned and
`movements` stays empty. -/
theorem c6_movements_only_when_parsed (source : String) (parsed : Option (List PyNode)) :
    (parse_plan_source source parsed).movements =
      if parsed.isSome then regexMovements source else [] := by
  cases parsed with
  | none => rfl
  | some nodes =>
    show (nodes.foldl applyNode {}).movements ++ regexMovements source = regexMovements source
    rw [foldl_applyNode_movements]
    rfl

/-- C7 counterexample: a 50-character local-LLM reply is NOT returned
verbatim (the code demands strictly more than 50 characters); it falls back
to the template explanation. -/
theorem c7_cex_fifty_char_reply_not_verbatim :
    (String.mk (List.replicate 50 'a')).length = 50 ∧
    generate_local_explanation {} none
        { chatResult := .ok (String.mk (List.replicate 50 'a')), textResult := .error () } ≠
      String.mk (List.replicate 50 'a') := by decide

/-- C7 (amended): a local-LLM reply of MORE than 50 characters is returned
verbatim; a reply of at most 50 characters (including exactly 50) is
treated as poor and replaced by the template explanation. -/
theorem c7_reply_length_gate (info : PlanInfo) (ctx : Option ExplainContext)
    (reply : String) (tr : Except Unit String) :
    (reply.length > 50 →
      generate_local_explanation info ctx { chatResult := .ok reply, textResult := tr } = reply) ∧
    (reply.length ≤ 50 →
      generate_local_explanation info ctx { chatResult := .ok reply, textResult := tr } =
        generate_template_explanation info ctx) := by
  constructor
  · intro h
    have hne : reply.data ≠ [] := by
      intro hd
      have h2 : reply.data.length > 50 := h
      rw [hd] at h2
      simp at h2
    unfold generate_local_explanation qualityGate
    exact if_pos ⟨str_ne_empty_of_data _ hne, h⟩
  · intro h
    unfold generate_local_explanation qualityGate
    exact if_neg (fun hc => absurd hc.2 (not_lt.mpr h))

/-- C7 witness: a 51-character reply is returned verbatim. -/
theorem c7_reply_length_gate_witness :
    (String.mk (List.replicate 51 'b')).length > 50 ∧
    generate_local_explanation {} none
        { chatResult := .ok (String.mk (List.replicate 51 'b')), textResult := .error () } =
      String.mk (List.replicate 51 'b') :=
  ⟨by decide, (c7_reply_length_gate {} none _ _).1 (by decide)⟩

theorem linspace_length (a b : ℚ) (n : ℕ) : (linspace a b n).length = n := by
  unfold linspace
  rw [List.length_map, List.length_range]

/-- C8: every channel array of a `get_scan_data` result — motor positions,
both detector channels and timestamps — has the same length, equal to the
implied point count 51. -/
theorem c8_scan_data_equal_lengths (scan_id stream : String) (expFn : ℚ → ℚ)
    (rand1 rand2 : ℕ → ℚ) (isoTime : ℕ → String) :
    (get_scan_data scan_id stream expFn rand1 rand2 isoTime).2.2.motor_x.length = 51 ∧
    (get_scan_data scan_id stream expFn rand1 rand2 isoTime).2.2.pilatus.length = 51 ∧
    (get_scan_data scan_id stream expFn rand1 rand2 isoTime).2.2.i0.length = 51 ∧
    (get_scan_data scan_id stream expFn rand1 rand2 isoTime).2.2.timestamp.length = 51 := by
  refine ⟨linspace_length 0 5 51, ?_, ?_, ?_⟩
  · show (List.zipWith (fun x r => 1000 * expFn (-((x - 5/2) ^ 2) / (1/2)) + 100 * r)
        (linspace 0 5 51) ((List.range 51).map rand1)).length = 51
    rw [List.length_zipWith, linspace_length, List.length_map, List.length_range]
    exact min_self 51
  · show ((List.range 51).map (fun i => (1000 : ℚ) + 50 * rand2 i)).length = 51
    rw [List.length_map, List.length_range]
  · show ((List.range 51).map isoTime).length = 51
    rw [List.length_map, List.length_range]

/-- C9 counterexample: in the two-device mock, the device literally named
"pilatus" is NOT classified into the detectors bucket (its name contains
neither "det" nor "scaler", nor "motor", and does not start with "m"); it
lands in the "other" bucket. -/
theorem c9_cex_pilatus_not_detector :
    (organize_devices mockTwoDevices).detectors = [] ∧
    (organize_devices mockTwoDevices).other.map Prod.fst = ["pilatus"] := by decide

/-- C9 (amended): the Gateway read path preserves the input ordering of the
two-device mock, and the name-substring heuristic classifies "motor_x" into
motors but "pilatus" into "other" (not detectors). -/
theorem c9_two_device_mock :
    (qserver_get_devices (.ok 200 [("motor_x", {}), ("pilatus", {})] "")).map
        (fun d => d.name) = ["motor_x", "pilatus"] ∧
    organize_devices mockTwoDevices =
      { motors := [("motor_x",
          { type := "Unknown", description := "Motor: motor_x"
            module := "", classname := "" })]
        detectors := []
        other := [("pilatus",
          { type := "Unknown", description := "Device: pilatus"
            module := "", classname := "" })] } := by
  exact ⟨rfl, by decide⟩
